import Mathlib

/-!
Verification of the POPxf semantic validation engine.

The development shallowly embeds the two validation pipelines of the
repository:

* `validator.py` (class POPxfValidator): mode assignment, scale check,
  data check, per-polynomial key/length/parameter checks, and the
  recursive schema-error explainer;
* `parser.py` (class POPxfParser): `get_mode`, `validate_scale` (including
  the FOP array-scale restrictions), and the schema-error explainer.

JSON documents are modelled structurally: optional fields become `Option`,
JSON objects whose insertion order matters become association lists, JSON
numbers become `Rat` (the validators never do arithmetic on them; only
lengths of arrays are inspected).  Python exceptions are split into the
typed `POPxfValidationError` variants (`VError`) and untyped interpreter
errors (`PyExn`, e.g. KeyError / NameError / AttributeError), since several
claims turn on which of the two a given input produces.
-/

namespace POPxf

/-- The single-quote character (codepoint 39), used by the serialized
key-tuple grammar. -/
def sq : Char := Char.ofNat 39

/-- A string consisting of one single-quote character. -/
def sqs : String := String.mk [sq]

/-- Wrap a string in single quotes. -/
def quoted (s : String) : String := sqs ++ s ++ sqs

/-- Serialize a key tuple the way POPxf documents spell it: parenthesized,
comma-separated, single-quoted tokens without spaces, a trailing comma for
a singleton (Python tuple syntax). -/
def keyOfTokens (ts : List String) : String :=
  match ts with
  | [t] => "(" ++ quoted t ++ ",)"
  | _ => "(" ++ String.intercalate "," (ts.map quoted) ++ ")"

/-- The literal two-empty-token key that `validator.py` `validate_data`
builds when desugaring a bare-array uncertainty entry (spelled with two
single-quoted empty tokens in the source). -/
def desugaredKey : String := keyOfTokens ["", ""]

/-- JSON numbers as they appear in POPxf documents.  The validators never
perform arithmetic on them; only array lengths matter. -/
abbrev JNum := Rat

/-- A serialized PolynomialMap: a JSON object mapping stringified key
tuples to arrays of numbers.  Modelled as an association list in insertion
order (Python dicts preserve insertion order; keys are unique after JSON
parsing). -/
abbrev PolyMap := List (String × List JNum)

/-- The `scale` metadata field: a single number or an array of numbers
(the `isinstance(scale, (int, float))` shape dispatch in both sources). -/
inductive ScaleValue where
  | num (x : JNum)
  | arr (xs : List JNum)
deriving DecidableEq, Repr

/-- An entry of `data["observable_uncertainties"]`: either a JSON object
(a PolynomialMap) or a bare numeric array (the `isinstance(v, dict)` /
`isinstance(v, list)` dispatch in `validator.py` `validate_data`). -/
inductive UncEntry where
  | dict (p : PolyMap)
  | list (xs : List JNum)
deriving DecidableEq, Repr

/-- The `metadata` section of a POPxf document.  Fields that the sources
access with `.get` or guard with `in` are `Option`; `observable_names`,
`parameters` and `scale` are required by the JSON schema.  Both spellings
`polynomial_degree` (read by validator.py) and `polynomial_order` (read by
parser.py) are kept, since the two sources read different keys.
`observable_expressions` is opaque here: only its presence is inspected. -/
structure Metadata where
  observable_names : List String
  parameters : List String
  scale : ScaleValue
  polynomial_degree : Option Nat := none
  polynomial_order : Option Nat := none
  polynomial_names : Option (List String) := none
  observable_expressions : Option (List String) := none
deriving DecidableEq, Repr

/-- The `data` section of a POPxf document. -/
structure DataSection where
  observable_central : Option PolyMap := none
  polynomial_central : Option PolyMap := none
  observable_uncertainties : Option (List (String × UncEntry)) := none
deriving DecidableEq, Repr

/-- A POPxf document after schema-version resolution: its `metadata` and
`data` sections. -/
structure Document where
  metadata : Metadata
  data : DataSection
deriving DecidableEq, Repr

/-- Operating mode: Single-Polynomial or Function-Of-Polynomials. -/
inductive Mode where
  | SP
  | FOP
deriving DecidableEq, Repr

/-- The typed `POPxfValidationError` variants raised by the two sources
beyond schema validation.  Each constructor carries the data interpolated
into the corresponding message string. -/
inductive VError where
  | incompleteFOPFieldsMetadata (missing : List String)
  | incompleteFOPFieldsData (missing : List String)
  | modeIndeterminate
  | scaleLengthMismatch (expected got : Nat)
  | forbiddenFieldInArrayScaleFOP
  | parameterDependentUncertaintyInArrayScaleFOP
  | polynomialKeyInvalid (key field : String) (degree : Nat)
  | polynomialKeyOrder (key field : String)
  | polynomialLengthMismatch (field key : String) (expected got : Nat)
  | unknownParameter (field : String) (extras : List String)
deriving DecidableEq, Repr

/-- Untyped Python interpreter exceptions that can escape the validators
(these are not `POPxfValidationError`s). -/
inductive PyExn where
  | keyError (key : String)
  | nameError (name : String)
  | attributeError (name : String)
  | valueError
deriving DecidableEq, Repr

/-- Any failure escaping a validation step: a typed validation error or an
untyped interpreter exception. -/
inductive Failure where
  | validation (e : VError)
  | exn (e : PyExn)
deriving DecidableEq, Repr

/-- Python dictionary subscription `d[key]` on a field modelled as
`Option`: raises `KeyError` when the field is absent. -/
def pyDictGet {α : Type} (o : Option α) (key : String) : Except Failure α :=
  match o with
  | some v => Except.ok v
  | none => Except.error (Failure.exn (PyExn.keyError key))

/-! ### The serialized key-tuple grammar

`validator.py` deserializes keys with `ast.literal_eval`, `parser.py`
(inside `validate_scale`) with `eval`.  On the POPxf key grammar both
yield a tuple of strings: a parenthesized, comma-separated sequence of
quoted tokens, a trailing comma allowed (and required for a singleton,
since a parenthesized single string without a comma is not a tuple in
Python).  The parser below implements exactly this grammar.  On strings
outside it, `literal_eval` raises an untyped error (modelled as
`ValueError`) and `eval` raises `NameError` for an unbound bare name
(the case arising in the sources, where uncertainty source names are
evaluated); both are represented here by the respective `PyExn`. -/

/-- Drop leading spaces. -/
def skipWs : List Char → List Char
  | ' ' :: cs => skipWs cs
  | cs => cs

/-- Scan a quoted token up to the closing quote `q`; returns the token
characters and the rest.  The POPxf key grammar has no escape sequences. -/
def takeStr (q : Char) : List Char → Option (List Char × List Char)
  | [] => none
  | c :: cs =>
    if c = q then some ([], cs)
    else
      match takeStr q cs with
      | some (tok, rest) => some (c :: tok, rest)
      | none => none

/-- Parse the comma-separated quoted items after the opening parenthesis.
Returns the tokens, whether a comma was consumed (needed to distinguish a
tuple from a parenthesized string), and the rest of the input. -/
def parseItems : Nat → List Char → Option (List String × Bool × List Char)
  | 0, _ => none
  | fuel + 1, cs =>
    match skipWs cs with
    | [] => none
    | c :: cs' =>
      if c = ')' then some ([], false, cs')
      else if c = sq ∨ c = '"' then
        match takeStr c cs' with
        | none => none
        | some (tok, rest) =>
          match skipWs rest with
          | ',' :: rest' =>
            match parseItems fuel rest' with
            | some (toks, _, r) => some (String.mk tok :: toks, true, r)
            | none => none
          | ')' :: rest' => some ([String.mk tok], false, rest')
          | _ => none
      else none

/-- Parse a serialized key tuple: tokens of the Python tuple literal, or
`none` when the string is not a tuple of string literals. -/
def parseTupleLit (s : String) : Option (List String) :=
  match skipWs s.data with
  | '(' :: cs =>
    match parseItems (cs.length + 1) cs with
    | some (toks, sawComma, rest) =>
      if skipWs rest = [] ∧ (toks.length ≠ 1 ∨ sawComma) then some toks
      else none
    | none => none
  | _ => none

/-- `ast.literal_eval` restricted to the POPxf key grammar: a tuple of
string literals, or an untyped error otherwise. -/
def literalEvalTuple (s : String) : Except Failure (List String) :=
  match parseTupleLit s with
  | some ts => Except.ok ts
  | none => Except.error (Failure.exn PyExn.valueError)

/-- `eval` as applied by `parser.py` `validate_scale` to the keys of
`data["observable_uncertainties"]`: a stringified tuple evaluates to the
tuple; a bare name (such as an uncertainty source name) is unbound in that
scope and raises `NameError`. -/
def pyEvalKey (s : String) : Except Failure (List String) :=
  match parseTupleLit s with
  | some ts => Except.ok ts
  | none => Except.error (Failure.exn (PyExn.nameError s))

/-! ### validator.py: class POPxfValidator -/

/-- Python string comparison is codepoint-lexicographic: less-or-equal on
the character lists. -/
def charsLe : List Char → List Char → Bool
  | [], _ => true
  | _ :: _, [] => false
  | a :: as, b :: bs =>
    if a.toNat < b.toNat then true
    else if b.toNat < a.toNat then false
    else charsLe as bs

/-- Python `a <= b` on strings. -/
def pyStrLe (a b : String) : Bool := charsLe a.data b.data

instance pyStrLeDecRel : DecidableRel (fun a b : String => pyStrLe a b = true) :=
  fun a b => Bool.decEq (pyStrLe a b) true

/-- Python `sorted` on a list of strings: the stable ascending sort under
codepoint-lexicographic comparison.  `insertionSort` is a stable sort,
hence extensionally the same function. -/
def pySorted (l : List String) : List String :=
  List.insertionSort (fun a b => pyStrLe a b = true) l

/-- The key-length dispatch of `validate_polynomial` (validator.py): a
tuple of length `degree` is all parameter tokens with no tag; length
`degree + 1` splits into parameter tokens and a trailing tag; any other
length raises the invalid-key error naming the key and field. -/
def splitKey (degree : Nat) (field k : String) (tuplekey : List String) :
    Except Failure (List String × Option String) :=
  if tuplekey.length = degree then Except.ok (tuplekey, none)
  else if tuplekey.length = degree + 1 then
    Except.ok (tuplekey.dropLast, tuplekey.getLast?)
  else Except.error (Failure.validation (VError.polynomialKeyInvalid k field degree))

/-- The per-entry body of the `validate_polynomial` loop (validator.py):
deserialize the key, dispatch on tuple length, check canonical ordering of
the parameter tokens, check the value length, and return the parameter
tokens contributed by this key. -/
def checkKey (degree expectedLength : Nat) (field k : String) (v : List JNum) :
    Except Failure (List String) :=
  match literalEvalTuple k with
  | Except.error e => Except.error e
  | Except.ok tuplekey =>
    match splitKey degree field k tuplekey with
    | Except.error e => Except.error e
    | Except.ok (params, _RIstr) =>
      if pySorted params ≠ params then
        Except.error (Failure.validation (VError.polynomialKeyOrder k field))
      else if v.length ≠ expectedLength then
        Except.error (Failure.validation
          (VError.polynomialLengthMismatch field k expectedLength v.length))
      else Except.ok params

/-- The `validate_polynomial` loop (validator.py): check every entry in
order (fail fast) and accumulate the parameter tokens of all keys. -/
def collectPolyParams (degree expectedLength : Nat) (field : String) :
    PolyMap → Except Failure (List String)
  | [] => Except.ok []
  | (k, v) :: rest =>
    match checkKey degree expectedLength field k v with
    | Except.error e => Except.error e
    | Except.ok params =>
      match collectPolyParams degree expectedLength field rest with
      | Except.error e => Except.error e
      | Except.ok restParams => Except.ok (params ++ restParams)

/-- The Python set `(set(poly_params) - set([""])) - set(parameters)`,
listed without duplicates (Python set iteration order is unspecified; only
membership and emptiness are ever used). -/
def extraParams (polyParams parameters : List String) : List String :=
  polyParams.dedup.filter (fun p => p ≠ "" ∧ p ∉ parameters)

/-- `validate_polynomial` (validator.py): per-key checks in order, then
the parameter-containment check over the union of all parameter tokens. -/
def validatePolynomial (degree : Nat) (parameters : List String)
    (poly : PolyMap) (expectedLength : Nat) (field : String) :
    Except Failure Unit :=
  match collectPolyParams degree expectedLength field poly with
  | Except.error e => Except.error e
  | Except.ok polyParams =>
    if extraParams polyParams parameters ≠ [] then
      Except.error (Failure.validation
        (VError.unknownParameter field (extraParams polyParams parameters)))
    else Except.ok ()

/-- The attributes POPxfValidator.__init__ sets before `validate_other`
(validator.py lines 140-150). -/
structure ValidatorState where
  metadata : Metadata
  data : DataSection
  polynomial_degree : Nat
  mode : Mode
  length_observable_names : Nat
  length_polynomial_names : Nat
  parameters : List String
deriving DecidableEq, Repr

/-- Mode assignment of POPxfValidator.__init__ (validator.py line 145):
FOP exactly when `polynomial_names` is present in metadata, SP otherwise.
No other field is consulted and no error can be raised here. -/
def validatorMode (md : Metadata) : Mode :=
  if md.polynomial_names.isSome then Mode.FOP else Mode.SP

/-- Build the POPxfValidator attributes from a document (validator.py
lines 140-150): degree defaults to 2, lengths from the metadata arrays. -/
def mkValidatorState (doc : Document) : ValidatorState :=
  { metadata := doc.metadata
    data := doc.data
    polynomial_degree := doc.metadata.polynomial_degree.getD 2
    mode := validatorMode doc.metadata
    length_observable_names := doc.metadata.observable_names.length
    length_polynomial_names := (doc.metadata.polynomial_names.getD []).length
    parameters := doc.metadata.parameters }

/-- `validate_scale` (validator.py): a numeric scale needs no checks; an
array-valued scale must match `observable_names` in SP mode and
`polynomial_names` in FOP mode (subscripting the latter raises KeyError
when absent, which the one-line mode assignment rules out). -/
def validatorValidateScale (st : ValidatorState) : Except Failure Unit :=
  match st.metadata.scale with
  | ScaleValue.num _ => Except.ok ()
  | ScaleValue.arr a =>
    match st.mode with
    | Mode.SP =>
      if a.length ≠ st.metadata.observable_names.length then
        Except.error (Failure.validation
          (VError.scaleLengthMismatch st.metadata.observable_names.length a.length))
      else Except.ok ()
    | Mode.FOP =>
      match pyDictGet st.metadata.polynomial_names "polynomial_names" with
      | Except.error e => Except.error e
      | Except.ok pn =>
        if a.length ≠ pn.length then
          Except.error (Failure.validation
            (VError.scaleLengthMismatch pn.length a.length))
        else Except.ok ()

/-- The `observable_uncertainties` loop of `validate_data` (validator.py):
a dict entry is validated as is; a bare array entry is first desugared to
the single-term map with the literal two-empty-token key; both against
expected length `length_observable_names`. -/
def validateUncEntries (st : ValidatorState) :
    List (String × UncEntry) → Except Failure Unit
  | [] => Except.ok ()
  | (k, v) :: rest =>
    let field := "data[\"observable_uncertainties\"][" ++ k ++ "]"
    let step :=
      match v with
      | UncEntry.dict p =>
        validatePolynomial st.polynomial_degree st.parameters p
          st.length_observable_names field
      | UncEntry.list xs =>
        validatePolynomial st.polynomial_degree st.parameters
          [(desugaredKey, xs)] st.length_observable_names field
    match step with
    | Except.error e => Except.error e
    | Except.ok () => validateUncEntries st rest

/-- `validate_data` (validator.py): validate the mode-selected central
field against its expected length, then the uncertainties if present. -/
def validatorValidateData (st : ValidatorState) : Except Failure Unit :=
  let central :=
    match st.mode with
    | Mode.SP =>
      match pyDictGet st.data.observable_central "observable_central" with
      | Except.error e => Except.error e
      | Except.ok oc =>
        validatePolynomial st.polynomial_degree st.parameters oc
          st.length_observable_names "data[\"observable_central\"]"
    | Mode.FOP =>
      match pyDictGet st.data.polynomial_central "polynomial_central" with
      | Except.error e => Except.error e
      | Except.ok pc =>
        validatePolynomial st.polynomial_degree st.parameters pc
          st.length_polynomial_names "data[\"polynomial_central\"]"
  match central with
  | Except.error e => Except.error e
  | Except.ok () =>
    match st.data.observable_uncertainties with
    | none => Except.ok ()
    | some entries => validateUncEntries st entries

/-- The methods defined in the body of class POPxfValidator
(validator.py).  Transcribed from the class body: it defines no
`set_poly_data`. -/
def popxfValidatorMethods : List String :=
  ["__init__", "validate_schema", "get_validation_error_message",
   "validate_other", "validate_scale", "validate_data",
   "validate_polynomial", "info"]

/-- POPxfValidator.__init__ after schema validation succeeded: set the
attributes, run `validate_other` (scale then data), then call
`self.set_poly_data()`.  Attribute lookup on the instance falls back to
the class method table; a name not defined there raises AttributeError.
The success branch mirrors returning the constructed object; it is
unreachable because the method table contains no `set_poly_data`. -/
def validatorInitAfterSchema (doc : Document) : Except Failure ValidatorState :=
  let st := mkValidatorState doc
  match validatorValidateScale st with
  | Except.error e => Except.error e
  | Except.ok () =>
    match validatorValidateData st with
    | Except.error e => Except.error e
    | Except.ok () =>
      if "set_poly_data" ∈ popxfValidatorMethods then Except.ok st
      else Except.error (Failure.exn (PyExn.attributeError "set_poly_data"))

/-! ### parser.py: class POPxfParser (mode detection and scale check) -/

/-- The FOP metadata markers checked by `get_mode` (parser.py). -/
def fopMetadataFields : List String := ["polynomial_names", "observable_expressions"]

/-- The FOP data markers checked by `get_mode` (parser.py). -/
def fopDataFields : List String := ["polynomial_central"]

/-- Whether any FOP marker (metadata or data) is present. -/
def fopMarkerPresent (md : Metadata) (dt : DataSection) : Bool :=
  md.polynomial_names.isSome || md.observable_expressions.isSome ||
    dt.polynomial_central.isSome

/-- Whether all three FOP markers are present. -/
def allFopMarkersPresent (md : Metadata) (dt : DataSection) : Bool :=
  md.polynomial_names.isSome && md.observable_expressions.isSome &&
    dt.polynomial_central.isSome

/-- `get_mode` (parser.py): if any FOP marker is present the mode is FOP
and all markers are required, the missing metadata markers being reported
first, then the missing data marker; otherwise SP requires
`observable_central`; otherwise the mode is indeterminate. -/
def getMode (md : Metadata) (dt : DataSection) : Except Failure Mode :=
  let anyMeta := md.polynomial_names.isSome || md.observable_expressions.isSome
  let anyData := dt.polynomial_central.isSome
  if anyMeta || anyData then
    let missingMeta :=
      (if md.polynomial_names.isSome then [] else ["polynomial_names"]) ++
      (if md.observable_expressions.isSome then [] else ["observable_expressions"])
    let missingData :=
      if dt.polynomial_central.isSome then [] else ["polynomial_central"]
    if missingMeta ≠ [] then
      Except.error (Failure.validation (VError.incompleteFOPFieldsMetadata missingMeta))
    else if missingData ≠ [] then
      Except.error (Failure.validation (VError.incompleteFOPFieldsData missingData))
    else Except.ok Mode.FOP
  else if dt.observable_central.isSome then Except.ok Mode.SP
  else Except.error (Failure.validation VError.modeIndeterminate)

/-- The parameter-independence loop of `validate_scale` (parser.py, FOP
array-scale branch): iterate over the keys of
`data["observable_uncertainties"]` (these are the uncertainty source
names, the outer dictionary keys), `eval` each key, flatten all characters
of all elements of the result, and require the character set to be a
subset of R and I. -/
def checkUncKeysParamIndep : List (String × UncEntry) → Except Failure Unit
  | [] => Except.ok ()
  | (key, _v) :: rest =>
    match pyEvalKey key with
    | Except.error e => Except.error e
    | Except.ok tup =>
      let chars := tup.foldl (fun acc y => acc ++ y.data) []
      if chars.all (fun c => c = 'I' || c = 'R') then checkUncKeysParamIndep rest
      else Except.error (Failure.validation
        VError.parameterDependentUncertaintyInArrayScaleFOP)

/-- `validate_scale` (parser.py): a numeric scale needs no checks.  An
array-valued scale in SP mode must match the length of
`data["observable_central"]` (the number of keys of that map).  In FOP
mode it must match `polynomial_names`; then `observable_central` must be
absent; then every key of `observable_uncertainties` must pass the
parameter-independence check. -/
def parserValidateScale (mode : Mode) (md : Metadata) (dt : DataSection) :
    Except Failure Unit :=
  match md.scale with
  | ScaleValue.num _ => Except.ok ()
  | ScaleValue.arr a =>
    match mode with
    | Mode.SP =>
      match pyDictGet dt.observable_central "observable_central" with
      | Except.error e => Except.error e
      | Except.ok oc =>
        if a.length ≠ oc.length then
          Except.error (Failure.validation
            (VError.scaleLengthMismatch oc.length a.length))
        else Except.ok ()
    | Mode.FOP =>
      match pyDictGet md.polynomial_names "polynomial_names" with
      | Except.error e => Except.error e
      | Except.ok pn =>
        if a.length ≠ pn.length then
          Except.error (Failure.validation
            (VError.scaleLengthMismatch pn.length a.length))
        else if dt.observable_central.isSome then
          Except.error (Failure.validation VError.forbiddenFieldInArrayScaleFOP)
        else checkUncKeysParamIndep (dt.observable_uncertainties.getD [])

/-! ### The schema-error explainer

`get_validation_error_message` (validator.py; parser.py has the same
recursion with fewer leaf reason kinds).  A jsonschema ValidationError is
a tree: an error with an empty `context` is a leaf, one with a non-empty
`context` recurses over its sub-errors. -/

/-- An element of a jsonschema `absolute_path`: an object key or an array
index. -/
inductive JSPathElem where
  | key (s : String)
  | idx (i : Nat)
deriving DecidableEq, Repr

/-- The `validator_value` of a `not` rule, as far as the explainer
inspects it: a subschema with a `required` list, one with a `$ref`, or
anything else (the source checks `required` first). -/
inductive NotValue where
  | requiredFields (fs : List String)
  | ref (r : String)
  | other
deriving DecidableEq, Repr

/-- A jsonschema ValidationError as consumed by the explainer: the
violated rule kind, the `not` subschema detail, the message, the string
form of the offending instance, the absolute path, and the sub-errors. -/
inductive JSErr where
  | mk (validatorKind : String) (notValue : NotValue) (message : String)
      (instanceStr : String) (absPath : List JSPathElem) (context : List JSErr)

/-- Render one path element in bracket form: integers bare, strings in
double quotes. -/
def pathElemBracket : JSPathElem → String
  | JSPathElem.idx i => "[" ++ toString i ++ "]"
  | JSPathElem.key s => "[\"" ++ s ++ "\"]"

/-- Render the head path element as the source inserts it into the join
(an integer head would be a TypeError in the Python join; schema roots are
objects, so heads are keys; an index is rendered by its decimal string
here). -/
def pathElemHead : JSPathElem → String
  | JSPathElem.idx i => toString i
  | JSPathElem.key s => s

/-- The path string of a leaf error: the literal root marker for an empty
path, else the head element followed by the bracketed rest. -/
def pathStr : List JSPathElem → String
  | [] => "the root JSON object"
  | p :: ps => pathElemHead p ++ String.join (ps.map pathElemBracket)

/-- The reason-kind-dependent suffix appended to a leaf message
(validator.py lines 244-265). -/
def leafSuffix (validatorKind : String) (notValue : NotValue)
    (instanceStr path : String) : String :=
  if validatorKind = "required" then " of " ++ quoted path
  else if validatorKind = "pattern" then " pattern for " ++ quoted path
  else if validatorKind = "not" then
    match notValue with
    | NotValue.requiredFields fs =>
      ".\n  " ++ quoted (String.intercalate ", " fs) ++ " forbidden in " ++ quoted path
    | NotValue.ref r =>
      if r = "#/$defs/stringifiedTuplePattern" then
        ".\n  " ++ sqs ++ "stringified tuple fields are forbidden in " ++
          sqs ++ path ++ sqs
      else instanceStr ++ " forbidden in " ++ quoted path
    | NotValue.other => " in " ++ quoted path
  else " in " ++ quoted path

/-- Python `list(set(xs))`: the duplicates removed (iteration order of a
Python set is unspecified; any duplicate-free representative models it). -/
def pyDedup (xs : List String) : List String := xs.dedup

mutual

/-- `get_validation_error_message` (validator.py): a leaf (empty context)
renders as two spaces, the message, and the reason suffix built from the
path; a non-leaf joins the deduplicated renderings of its sub-errors with
AND for a oneOf rule and OR otherwise. -/
def renderErr : JSErr → String
  | JSErr.mk validatorKind notValue message instanceStr absPath context =>
    match context with
    | [] => "  " ++ message ++ leafSuffix validatorKind notValue instanceStr (pathStr absPath)
    | c :: cs =>
      let sep := if validatorKind = "oneOf" then "AND" else "OR"
      String.intercalate ("\n  " ++ sep ++ "\n") (pyDedup (renderErrList (c :: cs)))

/-- Render a list of sub-errors (the comprehension over `error.context`). -/
def renderErrList : List JSErr → List String
  | [] => []
  | e :: es => renderErr e :: renderErrList es

end

/-! ### Helper lemmas -/

theorem charsLe_cons_iff (a b : Char) (as bs : List Char) :
    charsLe (a :: as) (b :: bs) = true ↔
      a.toNat < b.toNat ∨ (a.toNat = b.toNat ∧ charsLe as bs = true) := by
  by_cases h1 : a.toNat < b.toNat
  · simp [charsLe, h1]
  · by_cases h2 : b.toNat < a.toNat
    · simp only [charsLe, if_neg h1, if_pos h2]
      constructor
      · intro h; simp at h
      · rintro (h | ⟨he, _⟩) <;> omega
    · have he : a.toNat = b.toNat := by omega
      simp only [charsLe, if_neg h1, if_neg h2]
      simp [h1, he]

theorem charsLe_total : ∀ as bs : List Char, charsLe as bs = true ∨ charsLe bs as = true := by
  intro as
  induction as with
  | nil => intro bs; left; rfl
  | cons a as ih =>
    intro bs
    cases bs with
    | nil => right; rfl
    | cons b bs =>
      rw [charsLe_cons_iff, charsLe_cons_iff]
      rcases Nat.lt_trichotomy a.toNat b.toNat with h | h | h
      · left; left; exact h
      · rcases ih bs with h' | h'
        · left; right; exact ⟨h, h'⟩
        · right; right; exact ⟨h.symm, h'⟩
      · right; left; exact h

theorem charsLe_trans : ∀ as bs cs : List Char,
    charsLe as bs = true → charsLe bs cs = true → charsLe as cs = true := by
  intro as
  induction as with
  | nil => intro bs cs _ _; rfl
  | cons a as ih =>
    intro bs cs hab hbc
    cases bs with
    | nil => simp [charsLe] at hab
    | cons b bs =>
      cases cs with
      | nil => simp [charsLe] at hbc
      | cons c cs =>
        rw [charsLe_cons_iff] at hab hbc ⊢
        rcases hab with h1 | ⟨h1, h1'⟩ <;> rcases hbc with h2 | ⟨h2, h2'⟩
        · left; omega
        · left; omega
        · left; omega
        · right; exact ⟨by omega, ih bs cs h1' h2'⟩

instance : IsTotal String (fun a b => pyStrLe a b = true) :=
  ⟨fun a b => charsLe_total a.data b.data⟩

instance : IsTrans String (fun a b => pyStrLe a b = true) :=
  ⟨fun a b c => charsLe_trans a.data b.data c.data⟩

/-- A list of strings equals its own Python `sorted` order exactly when it
is sorted under codepoint-lexicographic comparison. -/
theorem pySorted_eq_self_iff (l : List String) :
    pySorted l = l ↔ l.Sorted (fun a b => pyStrLe a b = true) := by
  constructor
  · intro h
    rw [← h]
    exact List.sorted_insertionSort _ l
  · intro h
    exact List.Sorted.insertionSort_eq h

/-- Inversion for a successful per-key check: the key parsed, the length
dispatch succeeded, the parameter tokens were in sorted order, and the
value had the expected length. -/
theorem checkKey_ok_inv {degree expectedLength : Nat} {field k : String} {v : List JNum}
    {params : List String}
    (h : checkKey degree expectedLength field k v = Except.ok params) :
    ∃ ts tag, literalEvalTuple k = Except.ok ts ∧
      splitKey degree field k ts = Except.ok (params, tag) ∧
      pySorted params = params ∧ v.length = expectedLength := by
  unfold checkKey at h
  split at h
  · simp at h
  · rename_i ts hts
    split at h
    · simp at h
    · rename_i ps tag hsplit
      split at h
      · simp at h
      · rename_i hso
        split at h
        · simp at h
        · rename_i hlen
          simp only [Except.ok.injEq] at h
          subst h
          push_neg at hso hlen
          exact ⟨ts, tag, hts, hsplit, hso, hlen⟩

/-- A successful loop pass means every entry passed its per-key check. -/
theorem collectPolyParams_ok_forall {degree expectedLength : Nat} {field : String}
    {poly : PolyMap} {res : List String}
    (h : collectPolyParams degree expectedLength field poly = Except.ok res) :
    ∀ kv ∈ poly, ∃ params,
      checkKey degree expectedLength field kv.1 kv.2 = Except.ok params := by
  induction poly generalizing res with
  | nil => intro kv hkv; cases hkv
  | cons hd tl ih =>
    obtain ⟨k, v⟩ := hd
    intro kv hkv
    unfold collectPolyParams at h
    split at h
    · simp at h
    · rename_i params hck
      split at h
      · simp at h
      · rename_i restParams hcr
        rcases List.mem_cons.mp hkv with hkv | hkv
        · subst hkv; exact ⟨params, hck⟩
        · exact ih hcr kv hkv

/-- A successful `validate_polynomial` call means the per-key loop
succeeded. -/
theorem validatePolynomial_ok_collect {degree : Nat} {parameters : List String}
    {poly : PolyMap} {expectedLength : Nat} {field : String}
    (h : validatePolynomial degree parameters poly expectedLength field = Except.ok ()) :
    ∃ res, collectPolyParams degree expectedLength field poly = Except.ok res := by
  unfold validatePolynomial at h
  split at h
  · simp at h
  · rename_i res hc
    exact ⟨res, hc⟩

/-- Membership in the Python set difference used by the parameter check. -/
theorem extraParams_mem (pp parameters : List String) (p : String) :
    p ∈ extraParams pp parameters ↔ p ∈ pp ∧ p ≠ "" ∧ p ∉ parameters := by
  simp [extraParams, List.mem_filter, List.mem_dedup, and_assoc]

/-- The extra-parameter set is empty exactly when every non-empty token is
declared. -/
theorem extraParams_eq_nil_iff (pp parameters : List String) :
    extraParams pp parameters = [] ↔ ∀ p ∈ pp, p ≠ "" → p ∈ parameters := by
  constructor
  · intro h p hp hne
    by_contra hnm
    have hmem : p ∈ extraParams pp parameters :=
      (extraParams_mem pp parameters p).mpr ⟨hp, hne, hnm⟩
    simp [h] at hmem
  · intro h
    rw [List.eq_nil_iff_forall_not_mem]
    intro p hp
    rw [extraParams_mem] at hp
    exact hp.2.2 (h p hp.1 hp.2.1)

/-! ### Claim C1: mode detection -/

/-- C1 (amended): `POPxfParser.get_mode` implements total and exclusive
mode detection: if any FOP marker (polynomial_names,
observable_expressions, polynomial_central) is present the result is FOP
exactly when all three are present, and otherwise a failure naming (a
nonempty list of) genuinely missing markers — the missing metadata markers
first, else the missing data marker — is raised; with no marker present,
observable_central gives SP and its absence gives the
mode-indeterminate failure.  In particular `get_mode` never returns SP
while an FOP marker is present.  (`POPxfValidator.__init__` behaves
differently; see the counterexample.) -/
theorem popxf_C1_get_mode (md : Metadata) (dt : DataSection) :
    (fopMarkerPresent md dt = true →
      (allFopMarkersPresent md dt = true ∧ getMode md dt = Except.ok Mode.FOP) ∨
      (allFopMarkersPresent md dt = false ∧
        ∃ missing,
          (getMode md dt =
              Except.error (Failure.validation (VError.incompleteFOPFieldsMetadata missing)) ∨
           getMode md dt =
              Except.error (Failure.validation (VError.incompleteFOPFieldsData missing)))
          ∧ missing ≠ []
          ∧ ("polynomial_names" ∈ missing → md.polynomial_names = none)
          ∧ ("observable_expressions" ∈ missing → md.observable_expressions = none)
          ∧ ("polynomial_central" ∈ missing → dt.polynomial_central = none)
          ∧ (∀ f ∈ missing,
              f = "polynomial_names" ∨ f = "observable_expressions" ∨ f = "polynomial_central")))
    ∧ (fopMarkerPresent md dt = true → getMode md dt ≠ Except.ok Mode.SP)
    ∧ (fopMarkerPresent md dt = false → dt.observable_central.isSome = true →
        getMode md dt = Except.ok Mode.SP)
    ∧ (fopMarkerPresent md dt = false → dt.observable_central.isSome = false →
        getMode md dt = Except.error (Failure.validation VError.modeIndeterminate)) := by
  refine ⟨?_, ?_, ?_, ?_⟩ <;>
    cases hpn : md.polynomial_names <;> cases hoe : md.observable_expressions <;>
      cases hpc : dt.polynomial_central <;>
      simp_all [getMode, fopMarkerPresent, allFopMarkersPresent]

/-- C1 witness: on a document whose only FOP marker is a present
polynomial_central, `get_mode` does not return SP. -/
theorem popxf_C1_witness :
    fopMarkerPresent
        { observable_names := ["o1"], parameters := [], scale := ScaleValue.num 1 }
        { observable_central := some [(desugaredKey, [3])],
          polynomial_central := some [(desugaredKey, [3])] } = true
    ∧ getMode
        { observable_names := ["o1"], parameters := [], scale := ScaleValue.num 1 }
        { observable_central := some [(desugaredKey, [3])],
          polynomial_central := some [(desugaredKey, [3])] } ≠ Except.ok Mode.SP :=
  ⟨rfl, (popxf_C1_get_mode _ _).2.1 rfl⟩

/-- C1 counterexample: the same document — the FOP marker
polynomial_central is present, yet `POPxfValidator.__init__` assigns mode
SP (only polynomial_names is consulted) and the pipeline runs to its end
under SP without any IncompleteFOPFields or ModeIndeterminate failure:
the document silently falls back to SP. -/
theorem popxf_C1_cex :
    fopMarkerPresent
        { observable_names := ["o1"], parameters := [], scale := ScaleValue.num 1 }
        { observable_central := some [(desugaredKey, [3])],
          polynomial_central := some [(desugaredKey, [3])] } = true
    ∧ validatorMode
        { observable_names := ["o1"], parameters := [], scale := ScaleValue.num 1 } = Mode.SP
    ∧ validatorInitAfterSchema
        { metadata := { observable_names := ["o1"], parameters := [], scale := ScaleValue.num 1 }
          data := { observable_central := some [(desugaredKey, [3])],
                    polynomial_central := some [(desugaredKey, [3])] } } =
        Except.error (Failure.exn (PyExn.attributeError "set_poly_data")) :=
  ⟨rfl, rfl, rfl⟩

/-! ### Claim C2: the unreachable success branch of POPxfValidator -/

/-- C2: class POPxfValidator defines no method `set_poly_data`, so for
every document on which the scale and data validations succeed, __init__
still does not return: the unconditional `self.set_poly_data()` call
raises an untyped AttributeError. -/
theorem popxf_C2_init_unreachable :
    "set_poly_data" ∉ popxfValidatorMethods
    ∧ ∀ doc : Document,
        validatorValidateScale (mkValidatorState doc) = Except.ok () →
        validatorValidateData (mkValidatorState doc) = Except.ok () →
        validatorInitAfterSchema doc =
          Except.error (Failure.exn (PyExn.attributeError "set_poly_data")) := by
  constructor
  · decide
  · intro doc h1 h2
    simp [validatorInitAfterSchema, h1, h2, popxfValidatorMethods]

/-- C2 witness: a concrete SP document passing every validation still
ends in the AttributeError. -/
theorem popxf_C2_witness :
    validatorInitAfterSchema
        { metadata := { observable_names := ["o1"], parameters := [], scale := ScaleValue.num 1 }
          data := { observable_central := some [(desugaredKey, [3])] } } =
      Except.error (Failure.exn (PyExn.attributeError "set_poly_data")) :=
  popxf_C2_init_unreachable.2
    { metadata := { observable_names := ["o1"], parameters := [], scale := ScaleValue.num 1 }
      data := { observable_central := some [(desugaredKey, [3])] } } rfl rfl

/-! ### Claim C3: key-length dispatch and the real/imaginary tag -/

/-- C3 (amended): in `validate_polynomial`, a parsed tuple of length
`degree` yields exactly the `degree` parameter tokens and no tag; a tuple
of length `degree + 1` yields its first `degree` elements as parameter
tokens and its last element as the tag, which is not further checked
there (no length or R/I character constraint); any other tuple length
fails with the invalid-key error naming the key and field. -/
theorem popxf_C3_key_split (degree : Nat) (field k : String) (ts : List String) :
    (ts.length = degree → splitKey degree field k ts = Except.ok (ts, none))
    ∧ (ts.length = degree + 1 →
        ∃ tag, ts.getLast? = some tag ∧
          splitKey degree field k ts = Except.ok (ts.dropLast, some tag) ∧
          ts.dropLast.length = degree)
    ∧ (ts.length ≠ degree → ts.length ≠ degree + 1 →
        splitKey degree field k ts =
          Except.error (Failure.validation (VError.polynomialKeyInvalid k field degree))) := by
  refine ⟨?_, ?_, ?_⟩
  · intro h
    simp [splitKey, h]
  · intro h
    have hne : ts ≠ [] := by
      intro he
      rw [he] at h
      simp at h
    cases hl : ts.getLast? with
    | none => exact absurd (List.getLast?_eq_none_iff.mp hl) hne
    | some tag =>
      refine ⟨tag, rfl, ?_, ?_⟩
      · simp [splitKey, h, hl]
      · simp [List.length_dropLast, h]
  · intro h1 h2
    simp [splitKey, h1, h2]

/-- C3 witness: a length-2 tuple at degree 2 is taken whole as parameter
tokens with no tag. -/
theorem popxf_C3_witness :
    splitKey 2 "f" (keyOfTokens ["a", "b"]) ["a", "b"] = Except.ok (["a", "b"], none) :=
  (popxf_C3_key_split 2 "f" (keyOfTokens ["a", "b"]) ["a", "b"]).1 rfl

/-- C3 counterexample: at degree 1 a key whose trailing tag has length 3
and characters outside R and I is accepted by `validate_polynomial`
without any error, refuting the claimed tag length and character
checks. -/
theorem popxf_C3_cex :
    literalEvalTuple (keyOfTokens ["c1", "XYZ"]) = Except.ok ["c1", "XYZ"]
    ∧ "XYZ".length ≠ 1
    ∧ "XYZ".data.all (fun c => c = 'R' || c = 'I') = false
    ∧ validatePolynomial 1 ["c1"] [(keyOfTokens ["c1", "XYZ"], [5])] 1
        "data[\"observable_central\"]" = Except.ok () :=
  ⟨rfl, by decide, by decide, rfl⟩

/-! ### Claim C4: bare-array uncertainty desugaring -/

/-- C4 (amended): a bare-array observableUncertainties entry desugars to
the single-term PolynomialMap keyed by the literal two-empty-token key,
and validates exactly as the explicit dict form with that key; the
expected value length is always the observable count, independent of the
mode (the uncertainty loop reads only the degree, the parameters and the
observable count).  At polynomial degree 2 the desugared key is indeed
the all-empty KeyTuple with one empty token per degree slot; at any other
degree it is not (see the counterexample). -/
theorem popxf_C4_desugar :
    literalEvalTuple desugaredKey = Except.ok ["", ""]
    ∧ (∀ st : ValidatorState, ∀ k : String, ∀ xs : List JNum,
        ∀ rest : List (String × UncEntry),
        validateUncEntries st ((k, UncEntry.list xs) :: rest) =
          validateUncEntries st ((k, UncEntry.dict [(desugaredKey, xs)]) :: rest))
    ∧ (∀ st st' : ValidatorState,
        st.polynomial_degree = st'.polynomial_degree →
        st.parameters = st'.parameters →
        st.length_observable_names = st'.length_observable_names →
        ∀ es, validateUncEntries st es = validateUncEntries st' es)
    ∧ (["", ""] : List String).length = 2 ∧ (∀ t ∈ (["", ""] : List String), t = "") := by
  refine ⟨rfl, ?_, ?_, rfl, by decide⟩
  · intro st k xs rest
    rfl
  · intro st st' h1 h2 h3 es
    induction es with
    | nil => rfl
    | cons e rest ih =>
      obtain ⟨k, v⟩ := e
      cases v <;> simp only [validateUncEntries, h1, h2, h3, ih]

/-- C4 witness: the uncertainty loop treats a bare-array entry the same
under an SP-shaped state and an FOP-shaped state with equal degree,
parameters and observable count. -/
theorem popxf_C4_witness :
    validateUncEntries
        (mkValidatorState
          { metadata := { observable_names := ["o1"], parameters := [], scale := ScaleValue.num 1 }
            data := {} })
        [("sigma", UncEntry.list [1])] =
      validateUncEntries
        (mkValidatorState
          { metadata := { observable_names := ["x1"], parameters := [],
                          scale := ScaleValue.num 2, polynomial_names := some ["p1", "p2"] }
            data := {} })
        [("sigma", UncEntry.list [1])] :=
  popxf_C4_desugar.2.2.1 _ _ rfl rfl rfl [("sigma", UncEntry.list [1])]

/-- C4 counterexample: at polynomial degree 3 the bare-array entry is
desugared to the fixed two-empty-token key and rejected as an invalid
key, while the equivalent explicit dict with the all-empty length-3
KeyTuple validates — the two forms do not validate identically and the
desugared key is not the all-empty KeyTuple of the degree. -/
theorem popxf_C4_cex :
    validatorValidateData
        (mkValidatorState
          { metadata := { observable_names := ["o1"], parameters := [],
                          scale := ScaleValue.num 1, polynomial_degree := some 3 }
            data := { observable_central := some [(keyOfTokens ["", "", ""], [1])],
                      observable_uncertainties := some [("sigma", UncEntry.list [2])] } }) =
      Except.error (Failure.validation
        (VError.polynomialKeyInvalid desugaredKey
          "data[\"observable_uncertainties\"][sigma]" 3))
    ∧ validatorValidateData
        (mkValidatorState
          { metadata := { observable_names := ["o1"], parameters := [],
                          scale := ScaleValue.num 1, polynomial_degree := some 3 }
            data := { observable_central := some [(keyOfTokens ["", "", ""], [1])],
                      observable_uncertainties :=
                        some [("sigma", UncEntry.dict [(keyOfTokens ["", "", ""], [2])])] } }) =
      Except.ok () :=
  ⟨rfl, rfl⟩

/-! ### Claim C5: scale length checking -/

/-- C5 (amended): in `POPxfValidator.validate_scale` a numeric scale
always passes; an array scale passes in SP mode exactly when its length
equals the observable count (else the length-mismatch failure with that
expected count), and in FOP mode exactly when its length equals the
polynomial count (else the length-mismatch failure with that expected
count).  `POPxfParser.validate_scale` instead compares against the number
of keys of observable_central in SP mode (see the counterexample). -/
theorem popxf_C5_scale (st : ValidatorState) :
    (∀ x, st.metadata.scale = ScaleValue.num x → validatorValidateScale st = Except.ok ())
    ∧ (∀ a, st.metadata.scale = ScaleValue.arr a → st.mode = Mode.SP →
        (a.length = st.metadata.observable_names.length →
          validatorValidateScale st = Except.ok ())
        ∧ (a.length ≠ st.metadata.observable_names.length →
          validatorValidateScale st =
            Except.error (Failure.validation
              (VError.scaleLengthMismatch st.metadata.observable_names.length a.length))))
    ∧ (∀ a pn, st.metadata.scale = ScaleValue.arr a → st.mode = Mode.FOP →
        st.metadata.polynomial_names = some pn →
        (a.length = pn.length → validatorValidateScale st = Except.ok ())
        ∧ (a.length ≠ pn.length →
          validatorValidateScale st =
            Except.error (Failure.validation
              (VError.scaleLengthMismatch pn.length a.length)))) := by
  refine ⟨?_, ?_, ?_⟩
  · intro x hx
    simp [validatorValidateScale, hx]
  · intro a ha hm
    constructor <;> intro hl <;> simp [validatorValidateScale, ha, hm, hl]
  · intro a pn ha hm hpn
    constructor <;> intro hl <;> simp [validatorValidateScale, ha, hm, hpn, pyDictGet, hl]

/-- C5 witness: an SP document with two observables and a length-2 array
scale passes the validator scale check. -/
theorem popxf_C5_witness :
    validatorValidateScale
        (mkValidatorState
          { metadata := { observable_names := ["o1", "o2"], parameters := [],
                          scale := ScaleValue.arr [10, 20] }
            data := {} }) = Except.ok () :=
  ((popxf_C5_scale _).2.1 [10, 20] rfl rfl).1 rfl

/-- C5 counterexample: in `POPxfParser.validate_scale`, an SP document
whose array scale has exactly the length of observable_names (two) is
nevertheless rejected, because the parser compares against the number of
keys of observable_central (one); the reported expected length is that
key count, not the observable count. -/
theorem popxf_C5_cex :
    ([1, 2] : List JNum).length = (["o1", "o2"] : List String).length
    ∧ parserValidateScale Mode.SP
        { observable_names := ["o1", "o2"], parameters := [], scale := ScaleValue.arr [1, 2] }
        { observable_central := some [(desugaredKey, [1, 2])] } =
      Except.error (Failure.validation (VError.scaleLengthMismatch 1 2)) :=
  ⟨rfl, rfl⟩

/-! ### Claim C6: FOP array-scale restrictions -/

/-- C6: evaluation of `POPxfParser.validate_scale` at the failing input.
The FOP document has an array scale of the correct length, no
observable_central, and a single uncertainty source named sigma whose
only KeyTuple is the parameter-independent two-empty-token key — by the
claim the scale check should succeed — yet the code applies `eval` to the
uncertainty source name itself and dies with an untyped NameError,
instead of inspecting the KeyTuples. -/
theorem popxf_C6_eval :
    parserValidateScale Mode.FOP
        { observable_names := ["o1"], parameters := [], scale := ScaleValue.arr [1],
          polynomial_names := some ["p1"], observable_expressions := some ["e1"] }
        { polynomial_central := some [(desugaredKey, [1])],
          observable_uncertainties := some [("sigma", UncEntry.dict [(desugaredKey, [1])])] } =
      Except.error (Failure.exn (PyExn.nameError "sigma"))
    ∧ pyEvalKey desugaredKey = Except.ok ["", ""]
    ∧ ((["", ""] : List String).foldl (fun acc y => acc ++ y.data) []).all
        (fun c => c = 'I' || c = 'R') = true :=
  ⟨rfl, rfl, rfl⟩

/-! ### Claim C7: canonical key ordering -/

/-- C7: a key whose parameter tokens are in sorted order never produces
the key-order failure, and a key whose parameter tokens are not sorted
always produces exactly the key-order failure naming the key and the
field; moreover every key of a successfully validated PolynomialMap has
sorted parameter tokens (nothing is silently merged). -/
theorem popxf_C7_key_order :
    (∀ degree expectedLength : Nat, ∀ field k : String, ∀ v : List JNum,
      ∀ ts params : List String, ∀ tag : Option String,
      literalEvalTuple k = Except.ok ts →
      splitKey degree field k ts = Except.ok (params, tag) →
      ((params.Sorted (fun a b => pyStrLe a b = true) →
          checkKey degree expectedLength field k v ≠
            Except.error (Failure.validation (VError.polynomialKeyOrder k field)))
       ∧ (¬ params.Sorted (fun a b => pyStrLe a b = true) →
          checkKey degree expectedLength field k v =
            Except.error (Failure.validation (VError.polynomialKeyOrder k field)))))
    ∧ (∀ degree : Nat, ∀ parameters : List String, ∀ poly : PolyMap,
        ∀ expectedLength : Nat, ∀ field : String,
        validatePolynomial degree parameters poly expectedLength field = Except.ok () →
        ∀ kv ∈ poly, ∃ ts params tag,
          literalEvalTuple kv.1 = Except.ok ts ∧
          splitKey degree field kv.1 ts = Except.ok (params, tag) ∧
          params.Sorted (fun a b => pyStrLe a b = true)) := by
  constructor
  · intro degree expectedLength field k v ts params tag hts hsplit
    constructor
    · intro hsorted
      have hso : pySorted params = params := (pySorted_eq_self_iff params).mpr hsorted
      simp only [checkKey, hts, hsplit, hso, ne_eq, not_true_eq_false, if_false,
        ite_not]
      split <;> simp
    · intro hns
      have hne : pySorted params ≠ params := fun h => hns ((pySorted_eq_self_iff params).mp h)
      simp [checkKey, hts, hsplit, hne]
  · intro degree parameters poly expectedLength field hok kv hkv
    obtain ⟨res, hcol⟩ := validatePolynomial_ok_collect hok
    obtain ⟨params, hck⟩ := collectPolyParams_ok_forall hcol kv hkv
    obtain ⟨ts, tag, hts, hsplit, hso, _⟩ := checkKey_ok_inv hck
    exact ⟨ts, params, tag, hts, hsplit, (pySorted_eq_self_iff params).mp hso⟩

/-- C7 witness: the sorted key of tokens a, b does not trigger the
key-order failure. -/
theorem popxf_C7_witness :
    checkKey 2 1 "f" (keyOfTokens ["a", "b"]) [1] ≠
      Except.error (Failure.validation (VError.polynomialKeyOrder (keyOfTokens ["a", "b"]) "f")) :=
  ((popxf_C7_key_order.1 2 1 "f" (keyOfTokens ["a", "b"]) [1] ["a", "b"] ["a", "b"] none
    rfl rfl).1 (by decide))

/-! ### Claim C8: value-length checking -/

/-- C8: in a validated SP document every value array of
observable_central has the observable count as its length; and a key
(passing the parse, length-dispatch and ordering checks) whose value has
any other length is rejected with the length-mismatch failure reporting
the field, the key, the expected length and the length found. -/
theorem popxf_C8_length :
    (∀ st : ValidatorState, st.mode = Mode.SP →
      validatorValidateData st = Except.ok () →
      ∀ oc, st.data.observable_central = some oc →
      ∀ kv ∈ oc, kv.2.length = st.length_observable_names)
    ∧ (∀ degree : Nat, ∀ parameters : List String, ∀ expectedLength : Nat,
        ∀ field k : String, ∀ v : List JNum, ∀ rest : PolyMap,
        ∀ ts params : List String, ∀ tag : Option String,
        literalEvalTuple k = Except.ok ts →
        splitKey degree field k ts = Except.ok (params, tag) →
        pySorted params = params →
        v.length ≠ expectedLength →
        validatePolynomial degree parameters ((k, v) :: rest) expectedLength field =
          Except.error (Failure.validation
            (VError.polynomialLengthMismatch field k expectedLength v.length))) := by
  constructor
  · intro st hmode hok oc hoc kv hkv
    unfold validatorValidateData at hok
    rw [hmode, hoc] at hok
    simp only [pyDictGet] at hok
    split at hok
    · simp at hok
    · rename_i hvp
      obtain ⟨res, hcol⟩ := validatePolynomial_ok_collect hvp
      obtain ⟨params, hck⟩ := collectPolyParams_ok_forall hcol kv hkv
      obtain ⟨ts, tag, _, _, _, hlen⟩ := checkKey_ok_inv hck
      exact hlen
  · intro degree parameters expectedLength field k v rest ts params tag hts hsplit hso hlen
    have hck : checkKey degree expectedLength field k v =
        Except.error (Failure.validation
          (VError.polynomialLengthMismatch field k expectedLength v.length)) := by
      simp [checkKey, hts, hsplit, hso, hlen]
    simp [validatePolynomial, collectPolyParams, hck]

/-- C8 witness: a singleton key with a length-2 value against expected
length 1 is rejected with the length-mismatch failure carrying expected 1
and found 2. -/
theorem popxf_C8_witness :
    validatePolynomial 1 ["c1"] [(keyOfTokens ["c1"], [1, 2])] 1 "f" =
      Except.error (Failure.validation (VError.polynomialLengthMismatch "f" (keyOfTokens ["c1"]) 1 2)) :=
  popxf_C8_length.2 1 ["c1"] 1 "f" (keyOfTokens ["c1"]) [1, 2] [] ["c1"] ["c1"] none
    rfl rfl rfl (by decide)

/-! ### Claim C9: parameter containment -/

/-- C9: given that the per-key loop succeeded with accumulated parameter
tokens, `validate_polynomial` succeeds exactly when every non-empty token
is declared, and otherwise fails with the unknown-parameter failure
naming the field and exactly the undeclared non-empty tokens. -/
theorem popxf_C9_params (degree : Nat) (parameters : List String) (poly : PolyMap)
    (expectedLength : Nat) (field : String) (res : List String)
    (hcol : collectPolyParams degree expectedLength field poly = Except.ok res) :
    ((∀ p ∈ res, p ≠ "" → p ∈ parameters) →
       validatePolynomial degree parameters poly expectedLength field = Except.ok ())
    ∧ (¬ (∀ p ∈ res, p ≠ "" → p ∈ parameters) →
       validatePolynomial degree parameters poly expectedLength field =
         Except.error (Failure.validation
           (VError.unknownParameter field (extraParams res parameters))))
    ∧ (∀ p, p ∈ extraParams res parameters ↔ p ∈ res ∧ p ≠ "" ∧ p ∉ parameters) := by
  refine ⟨?_, ?_, extraParams_mem res parameters⟩
  · intro hsub
    have hnil : extraParams res parameters = [] := (extraParams_eq_nil_iff res parameters).mpr hsub
    simp [validatePolynomial, hcol, hnil]
  · intro hnsub
    have hne : extraParams res parameters ≠ [] :=
      fun h => hnsub ((extraParams_eq_nil_iff res parameters).mp h)
    simp [validatePolynomial, hcol, hne]

/-- C9 witness: the key of tokens c1, c2 at degree 2 with only c1
declared fails with the unknown-parameter failure naming exactly c2 (the
example of the specification). -/
theorem popxf_C9_witness :
    extraParams ["c1", "c2"] ["c1"] = ["c2"]
    ∧ validatePolynomial 2 ["c1"] [(keyOfTokens ["c1", "c2"], [1])] 1 "f" =
        Except.error (Failure.validation (VError.unknownParameter "f" ["c2"])) := by
  refine ⟨rfl, ?_⟩
  have h := (popxf_C9_params 2 ["c1"] [(keyOfTokens ["c1", "c2"], [1])] 1 "f"
    ["c1", "c2"] rfl).2.1 (by decide)
  simpa using h

/-! ### Claim C10: the schema-error explainer -/

/-- C10: a leaf failure renders as two spaces, its message and the
reason suffix built around the path string, the path string of an empty
path being the literal root marker; a non-leaf failure renders its
children recursively and joins the deduplicated renderings with OR, with
AND exactly for a oneOf (exactly-one-of) rule; the deduplication removes
exactly the duplicated sibling renderings. -/
theorem popxf_C10_explainer :
    pathStr [] = "the root JSON object"
    ∧ (∀ vk : String, ∀ nv : NotValue, ∀ msg inst : String, ∀ path : List JSPathElem,
        renderErr (JSErr.mk vk nv msg inst path []) =
          "  " ++ msg ++ leafSuffix vk nv inst (pathStr path))
    ∧ (∀ vk nv msg inst path, ∀ ctx : List JSErr, ctx ≠ [] →
        renderErr (JSErr.mk vk nv msg inst path ctx) =
          String.intercalate ("\n  " ++ (if vk = "oneOf" then "AND" else "OR") ++ "\n")
            (pyDedup (renderErrList ctx)))
    ∧ (∀ ctx : List JSErr, renderErrList ctx = ctx.map renderErr)
    ∧ (∀ xs : List String, (pyDedup xs).Nodup ∧ ∀ s, s ∈ pyDedup xs ↔ s ∈ xs) := by
  refine ⟨rfl, ?_, ?_, ?_, ?_⟩
  · intro vk nv msg inst path
    rfl
  · intro vk nv msg inst path ctx hne
    cases ctx with
    | nil => exact absurd rfl hne
    | cons c cs => rfl
  · intro ctx
    induction ctx with
    | nil => rfl
    | cons c cs ih => simp [renderErrList, ih]
  · intro xs
    exact ⟨List.nodup_dedup xs, fun s => List.mem_dedup⟩

/-- C10 witness: an exactly-one-of failure with two leaf children at
distinct paths joins the two renderings with AND, giving the concrete
two-line message. -/
theorem popxf_C10_witness :
    renderErr (JSErr.mk "oneOf" NotValue.other "m" "" []
        [JSErr.mk "required" NotValue.other "msg1" "" [JSPathElem.key "metadata"] [],
         JSErr.mk "type" NotValue.other "msg2" "" [JSPathElem.key "data"] []]) =
      String.intercalate ("\n  " ++ (if ("oneOf" : String) = "oneOf" then "AND" else "OR") ++ "\n")
        (pyDedup (renderErrList
          [JSErr.mk "required" NotValue.other "msg1" "" [JSPathElem.key "metadata"] [],
           JSErr.mk "type" NotValue.other "msg2" "" [JSPathElem.key "data"] []]))
    ∧ renderErr (JSErr.mk "oneOf" NotValue.other "m" "" []
        [JSErr.mk "required" NotValue.other "msg1" "" [JSPathElem.key "metadata"] [],
         JSErr.mk "type" NotValue.other "msg2" "" [JSPathElem.key "data"] []]) =
      "  msg1 of " ++ quoted "metadata" ++ "\n  AND\n" ++ "  msg2 in " ++ quoted "data" :=
  ⟨popxf_C10_explainer.2.2.1 "oneOf" NotValue.other "m" "" [] _ (by simp), by rfl⟩

end POPxf
